import Mathlib

/- Shallow embedding of `check_solr_index_version_age.py`, a Nagios probe that
checks Solr replication lag, index age, and core availability.

Modelling conventions:
* Python `datetime` values are integers of microseconds since the epoch;
  `datetime.fromtimestamp(s)` for an integer `s` is `s * 1000000`.
* Python 2 integer division `/` is floor division, modelled by `Int.fdiv`.
* The global dict `corestatuschecks` is a structure with the run-wide
  `errors` counter and a total map from core name to its per-core record
  (the script only ever reads keys it has initialised, so totalising the
  map with a default record is behaviour-preserving on those keys).
* The HTTP layer (`urllib2.urlopen` + `json.loads` inside `callUrl`) is an
  oracle `FetchOutcome` per call: either parsed data or one of the four
  caught exception classes.  The parsed JSON documents are given the record
  shapes the script reads from them.
* `urllib.urlencode` iterates a two-entry dict in an unspecified order; the
  model fixes one concrete query-string order (the one shown in the
  script's own docstring example).  No theorem depends on url contents.
-/

namespace CheckSolr

/-- Classification values returned by the checks; the script uses the
strings "OK", "WARNING", "CRITICAL", "ERROR". -/
inductive Classification where
  | OK
  | WARNING
  | CRITICAL
  | ERROR
deriving DecidableEq, Repr

/-- Per-core entry of the `corestatuschecks` dict, as initialised by
`prepareCoreStatusDataStructure`: counters `critical` and `warning`,
diagnostic `msg`, and the recorded `age` in seconds. -/
structure CoreRecord where
  critical : Nat
  warning : Nat
  msg : String
  age : Int
deriving DecidableEq, Repr

/-- Initial per-core record set by `prepareCoreStatusDataStructure`:
`critical = 0`, `warning = 0`, `msg = ''`, `age = -1`. -/
def initCoreRecord : CoreRecord :=
  { critical := 0, warning := 0, msg := "", age := -1 }

/-- The `corestatuschecks` dict: the run-wide `errors` tally plus the
per-core records (modelled as a total function on core names). -/
structure CoreStatusChecks where
  errors : Nat
  recs : String → CoreRecord

/-- The freshly created `dict()` before `prepareCoreStatusDataStructure`
runs (defaulted; the script never reads uninitialised keys). -/
def emptyChecks : CoreStatusChecks :=
  { errors := 0, recs := fun _ => initCoreRecord }

/-- `recordAge(core, age, corestatuschecks)`:
`corestatuschecks[core]['age'] = age`. -/
def recordAge (core : String) (age : Int) (corestatuschecks : CoreStatusChecks) :
    CoreStatusChecks :=
  { corestatuschecks with
    recs := fun x =>
      if x = core then { corestatuschecks.recs core with age := age }
      else corestatuschecks.recs x }

/-- `recordCheckMsg(core, msg, corestatuschecks)`:
`corestatuschecks[core]['msg'] = msg`. -/
def recordCheckMsg (core msg : String) (corestatuschecks : CoreStatusChecks) :
    CoreStatusChecks :=
  { corestatuschecks with
    recs := fun x =>
      if x = core then { corestatuschecks.recs core with msg := msg }
      else corestatuschecks.recs x }

/-- `recordCheckStatus(core, status, statusMap)`: CRITICAL and ERROR bump
`errors` and the core's `critical` counter, WARNING bumps `errors` and the
core's `warning` counter, anything else (i.e. OK) changes nothing. -/
def recordCheckStatus (core : String) (status : Classification)
    (statusMap : CoreStatusChecks) : CoreStatusChecks :=
  match status with
  | .CRITICAL =>
    { errors := statusMap.errors + 1,
      recs := fun x =>
        if x = core then
          { statusMap.recs core with critical := (statusMap.recs core).critical + 1 }
        else statusMap.recs x }
  | .ERROR =>
    { errors := statusMap.errors + 1,
      recs := fun x =>
        if x = core then
          { statusMap.recs core with critical := (statusMap.recs core).critical + 1 }
        else statusMap.recs x }
  | .WARNING =>
    { errors := statusMap.errors + 1,
      recs := fun x =>
        if x = core then
          { statusMap.recs core with warning := (statusMap.recs core).warning + 1 }
        else statusMap.recs x }
  | .OK => statusMap

/-- `diffInSeconds(date1, date2)`: the two datetimes are microseconds since
the epoch.  The script takes the nonnegative `timedelta` and evaluates
`(td.microseconds + (td.seconds + td.days * 24 * 3600) * 10**6) / 10**6`,
i.e. the floor of the timedelta's total microseconds divided by `10**6`
(Python 2 floor division). -/
def diffInSeconds (date1 date2 : Int) : Int :=
  let td := if date1 > date2 then date1 - date2 else date2 - date1
  td.fdiv 1000000

/-- `indexDiffInSeconds(indexversion1, indexversion2)`: each index version
is milliseconds since the epoch; `int(v)/1000` floor-divides to whole
seconds and `datetime.fromtimestamp` turns that into a datetime (modelled
as microseconds), then `diffInSeconds` compares the two. -/
def indexDiffInSeconds (indexversion1 indexversion2 : Int) : Int :=
  let date1 := indexversion1.fdiv 1000 * 1000000
  let date2 := indexversion2.fdiv 1000 * 1000000
  diffInSeconds date1 date2

/-- `checkIndexLagAgainstThresholds(lag, warningThreshold, criticalThreshold)`. -/
def checkIndexLagAgainstThresholds (lag warningThreshold criticalThreshold : Int) :
    Classification :=
  if lag = -1 then .ERROR
  else if lag > criticalThreshold then .CRITICAL
  else if lag > warningThreshold then .WARNING
  else .OK

/-- Outcome of one `urllib2.urlopen` + `json.loads` call inside `callUrl`:
the parsed document, or one of the four caught exception situations. -/
inductive FetchOutcome (α : Type) where
  | ok (data : α)
  | urlErrorTimeout
  | urlErrorOther
  | socketTimeout
  | socketError

/-- True on the four exception outcomes of a fetch. -/
def FetchOutcome.failed {α : Type} : FetchOutcome α → Bool
  | .ok _ => false
  | .urlErrorTimeout => true
  | .urlErrorOther => true
  | .socketTimeout => true
  | .socketError => true

/-- `callUrl(url, timeout, corestatuschecks, core)`: on success, the parsed
data; on each caught exception, `data` stays the empty `dict()`
(`emptyData`) and a diagnostic message is recorded for the core. -/
def callUrl {α : Type} (emptyData : α) (url : String) (outcome : FetchOutcome α)
    (core : String) (corestatuschecks : CoreStatusChecks) : α × CoreStatusChecks :=
  match outcome with
  | .ok d => (d, corestatuschecks)
  | .urlErrorTimeout =>
    (emptyData, recordCheckMsg core ("timeout calling " ++ url) corestatuschecks)
  | .urlErrorOther =>
    (emptyData, recordCheckMsg core ("exception calling " ++ url) corestatuschecks)
  | .socketTimeout =>
    (emptyData, recordCheckMsg core ("timeout calling:" ++ url) corestatuschecks)
  | .socketError =>
    (emptyData, recordCheckMsg core ("socket error calling:" ++ url) corestatuschecks)

/-- `rdata['details']['slave']['masterDetails']`: may carry an
`indexVersion` (milliseconds since the epoch). -/
structure MasterDetails where
  indexVersion : Option Int
deriving DecidableEq

/-- `rdata['details']['slave']`: may carry `masterDetails`. -/
structure SlaveDetails where
  masterDetails : Option MasterDetails
deriving DecidableEq

/-- `rdata['details']`: the slave's own `indexVersion` and the `slave`
sub-object. -/
structure ReplicationDetails where
  indexVersion : Option Int
  slave : Option SlaveDetails
deriving DecidableEq

/-- The JSON document returned by `<core>/replication?command=details`:
`isEmpty` models `len(rdata) == 0`, `details` models `rdata.get('details')`. -/
structure RepData where
  isEmpty : Bool
  details : Option ReplicationDetails
deriving DecidableEq

/-- The empty `dict()` that `callUrl` returns on failure, viewed as
replication data. -/
def emptyRepData : RepData :=
  { isEmpty := true, details := none }

/-- `repstatus(core, timeout, corestatuschecks)`: fetches the replication
details, derives the master/slave index version difference in seconds (or
`-1` with a diagnostic), records the age, and returns the difference. -/
def repstatus (baseurl core : String) (outcome : FetchOutcome RepData)
    (corestatuschecks : CoreStatusChecks) : Int × CoreStatusChecks :=
  let replicationUrl := baseurl ++ core ++ "/replication?wt=json&command=details"
  let r1 := callUrl emptyRepData replicationUrl outcome core corestatuschecks
  let rdata := r1.1
  let s1 := r1.2
  let diff1 : Int := if rdata.isEmpty then -1 else 0
  let step2 : Int × Option Int × Option Int × CoreStatusChecks :=
    match rdata.details with
    | none =>
      if diff1 ≠ -1 then
        (-1, none, none,
          recordCheckMsg core
            ("All Slave index version information not available. Host ok? " ++ replicationUrl) s1)
      else
        (diff1, none, none, s1)
    | some det =>
      match det.slave with
      | none =>
        if diff1 ≠ -1 then
          (-1, none, none,
            recordCheckMsg core
              ("All Slave index version information not available. Host ok? " ++ replicationUrl) s1)
        else
          (diff1, none, none, s1)
      | some sl =>
        match sl.masterDetails with
        | none =>
          (-1, det.indexVersion, none,
            recordCheckMsg core
              ("Slave unable to retrieve master index version information. Host able to contact master? "
                ++ replicationUrl) s1)
        | some md =>
          (diff1, det.indexVersion, md.indexVersion, s1)
  let diff2 := step2.1
  let slaveindexversion := step2.2.1
  let masterindexversion := step2.2.2.1
  let s2 := step2.2.2.2
  let step3 : Int × CoreStatusChecks :=
    match slaveindexversion with
    | none =>
      if diff2 ≠ -1 then
        (-1, recordCheckMsg core
          ("Slave index version information not available. Is this replicating? " ++ replicationUrl) s2)
      else
        (diff2, s2)
    | some siv =>
      match masterindexversion with
      | none =>
        if diff2 ≠ -1 then
          (-1, recordCheckMsg core
            ("Master index version information not available. Is the master avaialable? " ++ replicationUrl) s2)
        else
          (diff2, s2)
      | some miv => (indexDiffInSeconds miv siv, s2)
  (step3.1, recordAge core step3.1 step3.2)

/-- The JSON document returned by
`<core>/replication?command=indexversion`: `isEmpty` models
`len(data) == 0`, `indexversion` models `data.get('indexversion')`. -/
structure AgeData where
  isEmpty : Bool
  indexversion : Option Int
deriving DecidableEq

/-- The empty `dict()` that `callUrl` returns on failure, viewed as index
version data. -/
def emptyAgeData : AgeData :=
  { isEmpty := true, indexversion := none }

/-- `indexAgeInSeconds(core, timeout, corestatuschecks)`: fetches the index
version, compares it to `datetime.datetime.today()` (the `today` argument,
microseconds since the epoch, captured per call), records the age, and
returns the difference (or `-1` with a diagnostic). -/
def indexAgeInSeconds (baseurl core : String) (today : Int)
    (outcome : FetchOutcome AgeData) (corestatuschecks : CoreStatusChecks) :
    Int × CoreStatusChecks :=
  let replicationUrl := baseurl ++ core ++ "/replication?wt=json&command=indexversion"
  let r1 := callUrl emptyAgeData replicationUrl outcome core corestatuschecks
  let data := r1.1
  let s1 := r1.2
  -- `if(len(data)==0): diff = -1` in the script is dead: `diff` is
  -- overwritten on both branches of the following if/else.
  let _diff1 : Int := if data.isEmpty then -1 else 0
  let step2 : Int × CoreStatusChecks :=
    match data.indexversion with
    | some iv =>
      let ts := iv.fdiv 1000 * 1000000
      (diffInSeconds today ts, s1)
    | none =>
      (-1, recordCheckMsg core
        ("index version information not available. Is the node avaialable? " ++ replicationUrl) s1)
  (step2.1, recordAge core step2.1 step2.2)

/-- The JSON document returned by `<core>/admin/ping`, as the flat
string-valued dict the script reads (`len(data)` and `data.get('status')`). -/
abbrev PingDict := List (String × String)

/-- Python `dict.get` on the modelled ping document (parsed JSON objects
have unique keys, so first-match lookup is dict lookup). -/
def dictGet (d : PingDict) (key : String) : Option String :=
  (d.find? (fun kv => kv.1 == key)).map (fun kv => kv.2)

/-- `solrping(core, timeout, corestatuschecks)`: empty data (fetch failure
or empty document) is CRITICAL; otherwise `status == 'OK'` is OK and
anything else (including a missing field) is CRITICAL. -/
def solrping (baseurl core : String) (outcome : FetchOutcome PingDict)
    (corestatuschecks : CoreStatusChecks) : Classification × CoreStatusChecks :=
  let ping_cmd := baseurl ++ core ++ "/admin/ping?wt=json"
  let r1 := callUrl ([] : PingDict) ping_cmd outcome core corestatuschecks
  let data := r1.1
  if data.length = 0 then (.CRITICAL, r1.2)
  else if dictGet data "status" = some "OK" then (.OK, r1.2)
  else (.CRITICAL, r1.2)

/-- `prepareCoreStatusDataStructure(corenames, corestatuschecks)`: for each
core, (re)sets `errors` to 0 and the core's record to `initCoreRecord`. -/
def prepareCoreStatusDataStructure (corenames : List String)
    (corestatuschecks : CoreStatusChecks) : CoreStatusChecks :=
  corenames.foldl
    (fun s core =>
      { errors := 0,
        recs := fun x => if x = core then initCoreRecord else s.recs x })
    corestatuschecks

/-- Which of the three checks `main` runs, together with that check's
per-core oracle inputs (fetch outcomes; for the age check also the
per-core `datetime.today()` sample). -/
inductive ModeInput where
  | replication (threshold_warn threshold_crit : Int)
      (fetchOf : String → FetchOutcome RepData)
  | ping (fetchOf : String → FetchOutcome PingDict)
  | age (threshold_warn threshold_crit : Int) (todayOf : String → Int)
      (fetchOf : String → FetchOutcome AgeData)

/-- One iteration of `main`'s `for core in corenames` loop: run the
selected extractor, classify (the ping check is already a classification),
and record the classification. -/
def coreStep (baseurl : String) (mi : ModeInput) (core : String)
    (s : CoreStatusChecks) : CoreStatusChecks :=
  match mi with
  | .replication w c fetchOf =>
    let r := repstatus baseurl core (fetchOf core) s
    recordCheckStatus core (checkIndexLagAgainstThresholds r.1 w c) r.2
  | .ping fetchOf =>
    let r := solrping baseurl core (fetchOf core) s
    recordCheckStatus core r.1 r.2
  | .age w c todayOf fetchOf =>
    let r := indexAgeInSeconds baseurl core (todayOf core) (fetchOf core) s
    recordCheckStatus core (checkIndexLagAgainstThresholds r.1 w c) r.2

/-- Whether the mode's fetch for the given core is one of the failure
outcomes. -/
def ModeInput.fetchFailedAt : ModeInput → String → Bool
  | .replication _ _ f, c => (f c).failed
  | .ping f, c => (f c).failed
  | .age _ _ _ f, c => (f c).failed

/-- `main`'s evaluation phase: prepare the data structure, then process
every core with the selected check. -/
def runMode (baseurl : String) (mi : ModeInput) (corenames : List String) :
    CoreStatusChecks :=
  corenames.foldl (fun s core => coreStep baseurl mi core s)
    (prepareCoreStatusDataStructure corenames emptyChecks)

/-- Accumulator of `checkStatusOfCores`' `for core in corenames` loop: the
three sets being built, the growing `statusmsg` details string, and the
loop counter `i`. -/
structure LoopAcc where
  criticalCores : Finset String
  warningCores : Finset String
  okCores : Finset String
  statusmsg : String
  i : Nat

/-- One iteration of `checkStatusOfCores`' loop: add the core to exactly
one of the three sets (warning counter checked first, then critical), and
append its `\x7b"core": ..., "age(s)": ..., "msg": ...\x7d` detail entry. -/
def coreLoopStep (s : CoreStatusChecks) (acc : LoopAcc) (core : String) : LoopAcc :=
  let m0 := if acc.i > 0 then acc.statusmsg ++ "," else acc.statusmsg
  let acc1 :=
    if (s.recs core).warning > 0 then
      { acc with warningCores := insert core acc.warningCores }
    else if (s.recs core).critical > 0 then
      { acc with criticalCores := insert core acc.criticalCores }
    else
      { acc with okCores := insert core acc.okCores }
  let m1 := m0 ++ "\x7b\"core\":\"" ++ core ++ "\",\"age(s)\":\"" ++
    toString (s.recs core).age ++ "\""
  let m2 :=
    if (s.recs core).msg.length > 0 then m1 ++ ", \"msg\":\"" ++ (s.recs core).msg ++ "\""
    else m1
  { acc1 with statusmsg := m2 ++ "\x7d", i := acc.i + 1 }

/-- The whole partition/details loop of `checkStatusOfCores`, starting from
empty sets, an empty `statusmsg` and `i = 0`. -/
def partitionCores (corestatuschecks : CoreStatusChecks) (corenames : List String) :
    LoopAcc :=
  corenames.foldl (coreLoopStep corestatuschecks) ⟨∅, ∅, ∅, "", 0⟩

/-- The condition under which the loop adds a core to `warningCores`. -/
def warningFlag (s : CoreStatusChecks) (x : String) : Bool :=
  decide (0 < (s.recs x).warning)

/-- The condition under which the loop adds a core to `criticalCores`
(the warning branch was not taken). -/
def criticalFlag (s : CoreStatusChecks) (x : String) : Bool :=
  decide ((s.recs x).warning = 0 ∧ 0 < (s.recs x).critical)

/-- The condition under which the loop adds a core to `okCores` (neither
previous branch was taken). -/
def okFlag (s : CoreStatusChecks) (x : String) : Bool :=
  decide ((s.recs x).warning = 0 ∧ (s.recs x).critical = 0)

/-- `'"' + '","'.join(cores) + '"'` — Python iterates the set in an
unspecified order; the model joins in sorted order.  No theorem depends on
this string's contents. -/
def quotedJoin (cores : Finset String) : String :=
  "\"" ++ String.intercalate "\",\"" (cores.sort (fun a b => a ≤ b)) ++ "\""

/-- `checkStatusOfCores(corestatuschecks, corenames, warningMsg,
criticalMsg, okMsg)`: builds the report and exits.  `some (code, line)`
models printing exactly `line` and exiting with `code`; `none` models the
fall-through path (errors positive but both the critical and warning sets
empty) on which the function prints nothing and does not exit. -/
def checkStatusOfCores (corestatuschecks : CoreStatusChecks) (corenames : List String)
    (warningMsg criticalMsg okMsg : String) : Option (Nat × String) :=
  let acc := partitionCores corestatuschecks corenames
  let criticalCoreString := if acc.criticalCores.card > 0 then quotedJoin acc.criticalCores else ""
  let warningCoreString := if acc.warningCores.card > 0 then quotedJoin acc.warningCores else ""
  let okCoreString := if acc.okCores.card > 0 then quotedJoin acc.okCores else ""
  let statusmsg := " \"critical_cores\": [" ++ criticalCoreString ++ "], \"warning_cores\": ["
    ++ warningCoreString ++ "], \"ok_cores\": [" ++ okCoreString
    ++ "],\"num_cores_checked\" : \"" ++ toString corenames.length
    ++ "\" , \"num_ok_cores\" : \""
    ++ toString ((corenames.length : Int) - (corestatuschecks.errors : Int))
    ++ "\", \"details\": [ " ++ acc.statusmsg ++ " ] \x7d"
  if corestatuschecks.errors > 0 then
    if acc.criticalCores.card > 0 then
      some (2, criticalMsg ++ "| \x7b \"status\": \"CRITICAL\"," ++ statusmsg)
    else if acc.warningCores.card > 0 then
      some (1, warningMsg ++ "| \x7b \"status\": \"WARNING\"," ++ statusmsg)
    else
      none
  else
    some (0, okMsg ++ "| \x7b \"status\": \"OK\"," ++ statusmsg)

/-- A run in which each core is classified once and only
`recordCheckStatus` touches the state (the "each unit is recorded exactly
once" discipline of `main`'s loop, with the classification per core given
by `cls`). -/
def recordRun (cls : String → Classification) (corenames : List String) :
    CoreStatusChecks :=
  corenames.foldl (fun s core => recordCheckStatus core (cls core) s)
    (prepareCoreStatusDataStructure corenames emptyChecks)

/-- The per-core record produced by initialising a core and then recording
the given classification once. -/
def recordedRec : Classification → CoreRecord
  | .OK => { critical := 0, warning := 0, msg := "", age := -1 }
  | .WARNING => { critical := 0, warning := 1, msg := "", age := -1 }
  | .CRITICAL => { critical := 1, warning := 0, msg := "", age := -1 }
  | .ERROR => { critical := 1, warning := 0, msg := "", age := -1 }

/-! Helper lemmas about the three state-recording operations. -/

theorem recordAge_errors (core : String) (a : Int) (s : CoreStatusChecks) :
    (recordAge core a s).errors = s.errors := rfl

theorem recordCheckMsg_errors (core m : String) (s : CoreStatusChecks) :
    (recordCheckMsg core m s).errors = s.errors := rfl

theorem recordAge_recs (core : String) (a : Int) (s : CoreStatusChecks) (x : String) :
    (recordAge core a s).recs x =
      if x = core then { s.recs core with age := a } else s.recs x := rfl

theorem recordCheckMsg_recs (core m : String) (s : CoreStatusChecks) (x : String) :
    (recordCheckMsg core m s).recs x =
      if x = core then { s.recs core with msg := m } else s.recs x := rfl

theorem recordAge_warning (core : String) (a : Int) (s : CoreStatusChecks) (x : String) :
    ((recordAge core a s).recs x).warning = (s.recs x).warning := by
  rw [recordAge_recs]; by_cases hx : x = core <;> simp [hx]

theorem recordAge_critical (core : String) (a : Int) (s : CoreStatusChecks) (x : String) :
    ((recordAge core a s).recs x).critical = (s.recs x).critical := by
  rw [recordAge_recs]; by_cases hx : x = core <;> simp [hx]

theorem recordAge_msg (core : String) (a : Int) (s : CoreStatusChecks) (x : String) :
    ((recordAge core a s).recs x).msg = (s.recs x).msg := by
  rw [recordAge_recs]; by_cases hx : x = core <;> simp [hx]

theorem recordAge_age_self (core : String) (a : Int) (s : CoreStatusChecks) :
    ((recordAge core a s).recs core).age = a := by
  rw [recordAge_recs]; simp

theorem recordCheckMsg_warning (core m : String) (s : CoreStatusChecks) (x : String) :
    ((recordCheckMsg core m s).recs x).warning = (s.recs x).warning := by
  rw [recordCheckMsg_recs]; by_cases hx : x = core <;> simp [hx]

theorem recordCheckMsg_critical (core m : String) (s : CoreStatusChecks) (x : String) :
    ((recordCheckMsg core m s).recs x).critical = (s.recs x).critical := by
  rw [recordCheckMsg_recs]; by_cases hx : x = core <;> simp [hx]

theorem recordCheckMsg_age (core m : String) (s : CoreStatusChecks) (x : String) :
    ((recordCheckMsg core m s).recs x).age = (s.recs x).age := by
  rw [recordCheckMsg_recs]; by_cases hx : x = core <;> simp [hx]

theorem recordCheckMsg_msg_self (core m : String) (s : CoreStatusChecks) :
    ((recordCheckMsg core m s).recs core).msg = m := by
  rw [recordCheckMsg_recs]; simp

theorem recordAge_recs_ne (core : String) (a : Int) (s : CoreStatusChecks) (x : String)
    (hx : x ≠ core) : (recordAge core a s).recs x = s.recs x := by
  rw [recordAge_recs, if_neg hx]

theorem recordCheckMsg_recs_ne (core m : String) (s : CoreStatusChecks) (x : String)
    (hx : x ≠ core) : (recordCheckMsg core m s).recs x = s.recs x := by
  rw [recordCheckMsg_recs, if_neg hx]

theorem recordCheckStatus_errors (core : String) (status : Classification)
    (s : CoreStatusChecks) :
    (recordCheckStatus core status s).errors =
      s.errors + (if status = .OK then 0 else 1) := by
  cases status <;> simp [recordCheckStatus]

theorem recordCheckStatus_critical (core : String) (status : Classification)
    (s : CoreStatusChecks) (x : String) :
    ((recordCheckStatus core status s).recs x).critical =
      (s.recs x).critical +
        (if x = core ∧ (status = .CRITICAL ∨ status = .ERROR) then 1 else 0) := by
  cases status <;> by_cases hx : x = core <;> simp [recordCheckStatus, hx]

theorem recordCheckStatus_warning (core : String) (status : Classification)
    (s : CoreStatusChecks) (x : String) :
    ((recordCheckStatus core status s).recs x).warning =
      (s.recs x).warning + (if x = core ∧ status = .WARNING then 1 else 0) := by
  cases status <;> by_cases hx : x = core <;> simp [recordCheckStatus, hx]

theorem recordCheckStatus_age (core : String) (status : Classification)
    (s : CoreStatusChecks) (x : String) :
    ((recordCheckStatus core status s).recs x).age = (s.recs x).age := by
  cases status <;> by_cases hx : x = core <;> simp [recordCheckStatus, hx]

theorem recordCheckStatus_msg (core : String) (status : Classification)
    (s : CoreStatusChecks) (x : String) :
    ((recordCheckStatus core status s).recs x).msg = (s.recs x).msg := by
  cases status <;> by_cases hx : x = core <;> simp [recordCheckStatus, hx]

theorem recordCheckStatus_recs_ne (core : String) (status : Classification)
    (s : CoreStatusChecks) (x : String) (hx : x ≠ core) :
    (recordCheckStatus core status s).recs x = s.recs x := by
  cases status <;> simp [recordCheckStatus, hx]

/-! The arithmetic of `indexDiffInSeconds`. -/

/-- What `indexDiffInSeconds` actually computes: each millisecond timestamp
is floor-divided to whole seconds first, then the absolute difference of
the two whole-second values is taken. -/
theorem indexDiffInSeconds_abs (a b : Int) :
    indexDiffInSeconds a b = |a.fdiv 1000 - b.fdiv 1000| := by
  simp only [indexDiffInSeconds, diffInSeconds]
  by_cases h : a.fdiv 1000 * 1000000 > b.fdiv 1000 * 1000000
  · rw [if_pos h, ← sub_mul,
      abs_of_nonneg (by omega : (0 : Int) ≤ a.fdiv 1000 - b.fdiv 1000)]
    exact Int.mul_fdiv_cancel _ (by norm_num)
  · rw [if_neg h, ← sub_mul, abs_sub_comm,
      abs_of_nonneg (by omega : (0 : Int) ≤ b.fdiv 1000 - a.fdiv 1000)]
    exact Int.mul_fdiv_cancel _ (by norm_num)

/-- C1: the claim as stated is false on the code: a negative duration
other than `-1` is not treated as ERROR.  With thresholds `warn = 0`,
`crit = 5` (so `crit > warn ≥ 0`), the duration `-2` is classified OK. -/
theorem claim_C1_counterexample :
    (0 : Int) ≤ 0 ∧ (0 : Int) < 5 ∧
    checkIndexLagAgainstThresholds (-2) 0 5 = Classification.OK ∧
    checkIndexLagAgainstThresholds (-2) 0 5 ≠ Classification.ERROR := by
  refine ⟨le_refl 0, by norm_num, ?_, ?_⟩ <;> decide

/-- C1 (amended): for `crit > warn ≥ 0`, `checkIndexLagAgainstThresholds`
returns OK iff `d ≠ -1 ∧ d ≤ warn`, WARNING iff `warn < d ≤ crit`,
CRITICAL iff `d > crit`, and ERROR iff `d = -1` exactly — any other
negative duration is `≤ warn` and is classified OK, not ERROR. -/
theorem claim_C1 (d warn crit : Int) (hw : 0 ≤ warn) (hc : warn < crit) :
    (checkIndexLagAgainstThresholds d warn crit = .OK ↔ d ≠ -1 ∧ d ≤ warn) ∧
    (checkIndexLagAgainstThresholds d warn crit = .WARNING ↔ warn < d ∧ d ≤ crit) ∧
    (checkIndexLagAgainstThresholds d warn crit = .CRITICAL ↔ crit < d) ∧
    (checkIndexLagAgainstThresholds d warn crit = .ERROR ↔ d = -1) := by
  unfold checkIndexLagAgainstThresholds
  split_ifs with h1 h2 h3 <;> refine ⟨?_, ?_, ?_, ?_⟩ <;> simp <;> omega

theorem claim_C1_witness :
    ((0 : Int) ≤ 300 ∧ (300 : Int) < 600) ∧
    ((checkIndexLagAgainstThresholds 400 300 600 = .OK ↔ (400 : Int) ≠ -1 ∧ (400 : Int) ≤ 300) ∧
      (checkIndexLagAgainstThresholds 400 300 600 = .WARNING ↔
        (300 : Int) < 400 ∧ (400 : Int) ≤ 600) ∧
      (checkIndexLagAgainstThresholds 400 300 600 = .CRITICAL ↔ (600 : Int) < 400) ∧
      (checkIndexLagAgainstThresholds 400 300 600 = .ERROR ↔ (400 : Int) = -1)) :=
  ⟨⟨by norm_num, by norm_num⟩, claim_C1 400 300 600 (by norm_num) (by norm_num)⟩

/-- C2: the claim as stated is false on the code: `indexDiffInSeconds`
does round the two timestamps before subtracting.  At `t_master = 2000`,
`t_slave = 1001` the code returns 1, while
`floor(abs(t_master - t_slave) / 1000) = floor(999 / 1000) = 0`. -/
theorem claim_C2_counterexample :
    indexDiffInSeconds 2000 1001 = 1 ∧
    (|(2000 : Int) - 1001|).fdiv 1000 = 0 ∧
    indexDiffInSeconds 2000 1001 ≠ (|(2000 : Int) - 1001|).fdiv 1000 := by
  refine ⟨?_, ?_, ?_⟩ <;> decide

/-- C2 (amended): `indexDiffInSeconds(t_master, t_slave)` equals the
absolute difference of the two timestamps *after each is separately
truncated to whole seconds* (floor division by 1000), i.e.
`abs(floor(t_master/1000) - floor(t_slave/1000))` — not
`floor(abs(t_master - t_slave)/1000)`. -/
theorem claim_C2 (t_master t_slave : Int) :
    indexDiffInSeconds t_master t_slave =
      |t_master.fdiv 1000 - t_slave.fdiv 1000| :=
  indexDiffInSeconds_abs t_master t_slave

/-- C7: `indexDiffInSeconds` is symmetric in its two arguments, its result
is always nonnegative, and in particular the `-1` failure sentinel is
never produced by this arithmetic. -/
theorem claim_C7 (a b : Int) :
    indexDiffInSeconds a b = indexDiffInSeconds b a ∧
    0 ≤ indexDiffInSeconds a b ∧
    indexDiffInSeconds a b ≠ -1 := by
  rw [indexDiffInSeconds_abs, indexDiffInSeconds_abs]
  refine ⟨abs_sub_comm _ _, abs_nonneg _, ?_⟩
  have := abs_nonneg (a.fdiv 1000 - b.fdiv 1000)
  omega

/-! The partition loop of `checkStatusOfCores`. -/

/-- The three sets built by the `checkStatusOfCores` loop, characterised as
filters of the core list: warning wins for any core whose warning counter
is positive, then critical, then ok. -/
theorem partition_loop_sets (s : CoreStatusChecks) :
    ∀ (l : List String) (acc : LoopAcc),
      (l.foldl (coreLoopStep s) acc).warningCores =
        acc.warningCores ∪ (l.filter (warningFlag s)).toFinset ∧
      (l.foldl (coreLoopStep s) acc).criticalCores =
        acc.criticalCores ∪ (l.filter (criticalFlag s)).toFinset ∧
      (l.foldl (coreLoopStep s) acc).okCores =
        acc.okCores ∪ (l.filter (okFlag s)).toFinset := by
  intro l
  induction l with
  | nil => intro acc; simp
  | cons a t ih =>
    intro acc
    rw [List.foldl_cons]
    obtain ⟨ihw, ihc, ihk⟩ := ih (coreLoopStep s acc a)
    rcases Decidable.eq_or_ne (s.recs a).warning 0 with hw0 | hw0 <;>
      rcases Decidable.eq_or_ne (s.recs a).critical 0 with hc0 | hc0 <;>
      have ew : warningFlag s a = decide (0 < (s.recs a).warning) := rfl <;>
      have ec : criticalFlag s a =
        decide ((s.recs a).warning = 0 ∧ 0 < (s.recs a).critical) := rfl <;>
      have ek : okFlag s a =
        decide ((s.recs a).warning = 0 ∧ (s.recs a).critical = 0) := rfl <;>
      refine ⟨?_, ?_, ?_⟩ <;>
      (first | rw [ihw] | rw [ihc] | rw [ihk]) <;>
      simp [coreLoopStep, List.filter_cons, Nat.pos_iff_ne_zero, hw0, hc0, ew, ec, ek,
        Finset.insert_union, Finset.union_insert]

/-- C3: the claim as stated is false on the code: when both counters are
positive, the warning check comes first, so the unit lands in the warning
set and not in the critical set. -/
theorem claim_C3_counterexample :
    "a" ∈ (partitionCores
        ⟨0, fun _ => { critical := 1, warning := 1, msg := "", age := 0 }⟩
        ["a"]).warningCores ∧
    "a" ∉ (partitionCores
        ⟨0, fun _ => { critical := 1, warning := 1, msg := "", age := 0 }⟩
        ["a"]).criticalCores ∧
    (partitionCores
        ⟨0, fun _ => { critical := 1, warning := 1, msg := "", age := 0 }⟩
        ["a"]).criticalCores = ∅ := by
  refine ⟨?_, ?_, ?_⟩ <;> decide

/-- C3 (amended): the aggregation assigns a unit with warning counter > 0
to the warning set (even if its critical counter is also positive —
warning takes precedence), a unit with critical counter > 0 and warning
counter = 0 to the critical set, and all remaining units to the ok set. -/
theorem claim_C3 (s : CoreStatusChecks) (corenames : List String) (core : String) :
    (core ∈ (partitionCores s corenames).warningCores ↔
      core ∈ corenames ∧ 0 < (s.recs core).warning) ∧
    (core ∈ (partitionCores s corenames).criticalCores ↔
      core ∈ corenames ∧ (s.recs core).warning = 0 ∧ 0 < (s.recs core).critical) ∧
    (core ∈ (partitionCores s corenames).okCores ↔
      core ∈ corenames ∧ (s.recs core).warning = 0 ∧ (s.recs core).critical = 0) := by
  obtain ⟨hw, hc, hk⟩ := partition_loop_sets s corenames ⟨∅, ∅, ∅, "", 0⟩
  unfold partitionCores
  rw [hw, hc, hk]
  simp [List.mem_filter, warningFlag, criticalFlag, okFlag, and_assoc]

/-- C4: the three sets are a partition of the (deduplicated, as `main`
builds them) checked cores: each checked core is in exactly one set and
the three cardinalities sum to the number of cores checked. -/
theorem claim_C4 (s : CoreStatusChecks) (corenames : List String)
    (h : corenames.Nodup) :
    (∀ core ∈ corenames,
      (core ∈ (partitionCores s corenames).criticalCores ∧
        core ∉ (partitionCores s corenames).warningCores ∧
        core ∉ (partitionCores s corenames).okCores) ∨
      (core ∉ (partitionCores s corenames).criticalCores ∧
        core ∈ (partitionCores s corenames).warningCores ∧
        core ∉ (partitionCores s corenames).okCores) ∨
      (core ∉ (partitionCores s corenames).criticalCores ∧
        core ∉ (partitionCores s corenames).warningCores ∧
        core ∈ (partitionCores s corenames).okCores)) ∧
    (partitionCores s corenames).criticalCores.card +
      (partitionCores s corenames).warningCores.card +
      (partitionCores s corenames).okCores.card = corenames.length := by
  obtain ⟨hw, hc, hk⟩ := partition_loop_sets s corenames ⟨∅, ∅, ∅, "", 0⟩
  have hmemw : ∀ core : String, core ∈ (partitionCores s corenames).warningCores ↔
      core ∈ corenames ∧ 0 < (s.recs core).warning := by
    intro core; unfold partitionCores; rw [hw]
    simp [List.mem_filter, warningFlag]
  have hmemc : ∀ core : String, core ∈ (partitionCores s corenames).criticalCores ↔
      core ∈ corenames ∧ (s.recs core).warning = 0 ∧ 0 < (s.recs core).critical := by
    intro core; unfold partitionCores; rw [hc]
    simp [List.mem_filter, criticalFlag, and_assoc]
  have hmemk : ∀ core : String, core ∈ (partitionCores s corenames).okCores ↔
      core ∈ corenames ∧ (s.recs core).warning = 0 ∧ (s.recs core).critical = 0 := by
    intro core; unfold partitionCores; rw [hk]
    simp [List.mem_filter, okFlag, and_assoc]
  constructor
  · intro core hcore
    rcases Decidable.eq_or_ne (s.recs core).warning 0 with hw0 | hw0
    · rcases Decidable.eq_or_ne (s.recs core).critical 0 with hc0 | hc0
      · right; right
        simp [hmemw, hmemc, hmemk, hcore, hw0, hc0]
      · left
        simp [hmemw, hmemc, hmemk, hcore, hw0, hc0, Nat.pos_iff_ne_zero]
    · right; left
      simp [hmemw, hmemc, hmemk, hcore, hw0, Nat.pos_iff_ne_zero]
  · have key : ∀ l : List String,
        (l.filter (criticalFlag s)).length + (l.filter (warningFlag s)).length +
          (l.filter (okFlag s)).length = l.length := by
      intro l
      induction l with
      | nil => simp
      | cons a t ih =>
        have ew : warningFlag s a = decide (0 < (s.recs a).warning) := rfl
        have ec : criticalFlag s a =
          decide ((s.recs a).warning = 0 ∧ 0 < (s.recs a).critical) := rfl
        have ek : okFlag s a =
          decide ((s.recs a).warning = 0 ∧ (s.recs a).critical = 0) := rfl
        rcases Decidable.eq_or_ne (s.recs a).warning 0 with hw0 | hw0 <;>
          rcases Decidable.eq_or_ne (s.recs a).critical 0 with hc0 | hc0 <;>
          simp [List.filter_cons, ew, ec, ek, hw0, hc0, Nat.pos_iff_ne_zero] <;> omega
    unfold partitionCores
    rw [hw, hc, hk]
    simp only [Finset.empty_union]
    rw [List.toFinset_card_of_nodup (h.filter _),
      List.toFinset_card_of_nodup (h.filter _),
      List.toFinset_card_of_nodup (h.filter _)]
    exact key corenames

theorem claim_C4_witness :
    (["core1", "core2"] : List String).Nodup ∧
    (partitionCores emptyChecks ["core1", "core2"]).criticalCores.card +
      (partitionCores emptyChecks ["core1", "core2"]).warningCores.card +
      (partitionCores emptyChecks ["core1", "core2"]).okCores.card =
      (["core1", "core2"] : List String).length :=
  ⟨by decide, (claim_C4 emptyChecks ["core1", "core2"] (by decide)).2⟩

/-! Effect lemmas for the three extractors: none of them touches the
`errors` tally or any warning/critical counter, none touches any record of
a different core, and on a failed fetch each leaves the core with
duration `-1` (for the two duration checks) and a non-empty message. -/

theorem length_pos_append (p u : String) (hp : 0 < p.length) : 0 < (p ++ u).length := by
  rw [String.length_append]; omega

theorem solrping_errors (b core : String) (f : FetchOutcome PingDict)
    (s : CoreStatusChecks) : (solrping b core f s).2.errors = s.errors := by
  cases f <;> simp [solrping, callUrl, recordCheckMsg_errors] <;>
    split_ifs <;> simp [recordCheckMsg_errors]

theorem solrping_warning (b core : String) (f : FetchOutcome PingDict)
    (s : CoreStatusChecks) (x : String) :
    ((solrping b core f s).2.recs x).warning = (s.recs x).warning := by
  cases f <;> simp [solrping, callUrl, recordCheckMsg_warning] <;>
    split_ifs <;> simp [recordCheckMsg_warning]

theorem solrping_critical (b core : String) (f : FetchOutcome PingDict)
    (s : CoreStatusChecks) (x : String) :
    ((solrping b core f s).2.recs x).critical = (s.recs x).critical := by
  cases f <;> simp [solrping, callUrl, recordCheckMsg_critical] <;>
    split_ifs <;> simp [recordCheckMsg_critical]

theorem solrping_age (b core : String) (f : FetchOutcome PingDict)
    (s : CoreStatusChecks) (x : String) :
    ((solrping b core f s).2.recs x).age = (s.recs x).age := by
  cases f <;> simp [solrping, callUrl, recordCheckMsg_age] <;>
    split_ifs <;> simp [recordCheckMsg_age]

theorem solrping_recs_ne (b core : String) (f : FetchOutcome PingDict)
    (s : CoreStatusChecks) (x : String) (hx : x ≠ core) :
    (solrping b core f s).2.recs x = s.recs x := by
  cases f <;> simp [solrping, callUrl, recordCheckMsg_recs, hx] <;>
    split_ifs <;> simp [recordCheckMsg_recs, hx]

theorem solrping_failed (b core : String) (f : FetchOutcome PingDict)
    (s : CoreStatusChecks) (h : f.failed = true) :
    (solrping b core f s).1 = .CRITICAL ∧
    0 < ((solrping b core f s).2.recs core).msg.length := by
  cases f with
  | ok d => simp [FetchOutcome.failed] at h
  | urlErrorTimeout =>
    refine ⟨rfl, ?_⟩
    have h2 : ((solrping b core .urlErrorTimeout s).2.recs core).msg =
        "timeout calling " ++ (b ++ core ++ "/admin/ping?wt=json") := by
      simp [solrping, callUrl, recordCheckMsg_msg_self]
    rw [h2]
    exact length_pos_append _ _ (by decide)
  | urlErrorOther =>
    refine ⟨rfl, ?_⟩
    have h2 : ((solrping b core .urlErrorOther s).2.recs core).msg =
        "exception calling " ++ (b ++ core ++ "/admin/ping?wt=json") := by
      simp [solrping, callUrl, recordCheckMsg_msg_self]
    rw [h2]
    exact length_pos_append _ _ (by decide)
  | socketTimeout =>
    refine ⟨rfl, ?_⟩
    have h2 : ((solrping b core .socketTimeout s).2.recs core).msg =
        "timeout calling:" ++ (b ++ core ++ "/admin/ping?wt=json") := by
      simp [solrping, callUrl, recordCheckMsg_msg_self]
    rw [h2]
    exact length_pos_append _ _ (by decide)
  | socketError =>
    refine ⟨rfl, ?_⟩
    have h2 : ((solrping b core .socketError s).2.recs core).msg =
        "socket error calling:" ++ (b ++ core ++ "/admin/ping?wt=json") := by
      simp [solrping, callUrl, recordCheckMsg_msg_self]
    rw [h2]
    exact length_pos_append _ _ (by decide)

theorem indexAgeInSeconds_age_eq (b core : String) (today : Int)
    (f : FetchOutcome AgeData) (s : CoreStatusChecks) :
    ((indexAgeInSeconds b core today f s).2.recs core).age =
      (indexAgeInSeconds b core today f s).1 := by
  simp [indexAgeInSeconds, recordAge_age_self]

theorem indexAgeInSeconds_errors (b core : String) (today : Int)
    (f : FetchOutcome AgeData) (s : CoreStatusChecks) :
    (indexAgeInSeconds b core today f s).2.errors = s.errors := by
  rcases f with ⟨e, _ | iv⟩ | _ | _ | _ | _ <;>
    simp [indexAgeInSeconds, callUrl, emptyAgeData, recordAge_errors, recordCheckMsg_errors]

theorem indexAgeInSeconds_warning (b core : String) (today : Int)
    (f : FetchOutcome AgeData) (s : CoreStatusChecks) (x : String) :
    ((indexAgeInSeconds b core today f s).2.recs x).warning = (s.recs x).warning := by
  rcases f with ⟨e, _ | iv⟩ | _ | _ | _ | _ <;>
    simp [indexAgeInSeconds, callUrl, emptyAgeData, recordAge_warning, recordCheckMsg_warning]

theorem indexAgeInSeconds_critical (b core : String) (today : Int)
    (f : FetchOutcome AgeData) (s : CoreStatusChecks) (x : String) :
    ((indexAgeInSeconds b core today f s).2.recs x).critical = (s.recs x).critical := by
  rcases f with ⟨e, _ | iv⟩ | _ | _ | _ | _ <;>
    simp [indexAgeInSeconds, callUrl, emptyAgeData, recordAge_critical, recordCheckMsg_critical]

theorem indexAgeInSeconds_recs_ne (b core : String) (today : Int)
    (f : FetchOutcome AgeData) (s : CoreStatusChecks) (x : String) (hx : x ≠ core) :
    (indexAgeInSeconds b core today f s).2.recs x = s.recs x := by
  rcases f with ⟨e, _ | iv⟩ | _ | _ | _ | _ <;>
    simp [indexAgeInSeconds, callUrl, emptyAgeData, recordAge_recs, recordCheckMsg_recs, hx]

theorem indexAgeInSeconds_failed (b core : String) (today : Int)
    (f : FetchOutcome AgeData) (s : CoreStatusChecks) (h : f.failed = true) :
    (indexAgeInSeconds b core today f s).1 = -1 ∧
    0 < ((indexAgeInSeconds b core today f s).2.recs core).msg.length := by
  cases f with
  | ok d => simp [FetchOutcome.failed] at h
  | urlErrorTimeout =>
    refine ⟨rfl, ?_⟩
    have h2 : ((indexAgeInSeconds b core today .urlErrorTimeout s).2.recs core).msg =
        "index version information not available. Is the node avaialable? " ++
          (b ++ core ++ "/replication?wt=json&command=indexversion") := by
      simp [indexAgeInSeconds, callUrl, emptyAgeData, recordAge_msg, recordCheckMsg_msg_self]
    rw [h2]
    exact length_pos_append _ _ (by decide)
  | urlErrorOther =>
    refine ⟨rfl, ?_⟩
    have h2 : ((indexAgeInSeconds b core today .urlErrorOther s).2.recs core).msg =
        "index version information not available. Is the node avaialable? " ++
          (b ++ core ++ "/replication?wt=json&command=indexversion") := by
      simp [indexAgeInSeconds, callUrl, emptyAgeData, recordAge_msg, recordCheckMsg_msg_self]
    rw [h2]
    exact length_pos_append _ _ (by decide)
  | socketTimeout =>
    refine ⟨rfl, ?_⟩
    have h2 : ((indexAgeInSeconds b core today .socketTimeout s).2.recs core).msg =
        "index version information not available. Is the node avaialable? " ++
          (b ++ core ++ "/replication?wt=json&command=indexversion") := by
      simp [indexAgeInSeconds, callUrl, emptyAgeData, recordAge_msg, recordCheckMsg_msg_self]
    rw [h2]
    exact length_pos_append _ _ (by decide)
  | socketError =>
    refine ⟨rfl, ?_⟩
    have h2 : ((indexAgeInSeconds b core today .socketError s).2.recs core).msg =
        "index version information not available. Is the node avaialable? " ++
          (b ++ core ++ "/replication?wt=json&command=indexversion") := by
      simp [indexAgeInSeconds, callUrl, emptyAgeData, recordAge_msg, recordCheckMsg_msg_self]
    rw [h2]
    exact length_pos_append _ _ (by decide)

theorem repstatus_age_eq (b core : String) (f : FetchOutcome RepData)
    (s : CoreStatusChecks) :
    ((repstatus b core f s).2.recs core).age = (repstatus b core f s).1 := by
  simp [repstatus, recordAge_age_self]

theorem repstatus_errors (b core : String) (f : FetchOutcome RepData)
    (s : CoreStatusChecks) : (repstatus b core f s).2.errors = s.errors := by
  rcases f with ⟨e, _ | ⟨_ | siv, _ | ⟨_ | ⟨_ | miv⟩⟩⟩⟩ | _ | _ | _ | _ <;>
    try cases e
  all_goals
    simp [repstatus, callUrl, emptyRepData, recordAge_errors, recordCheckMsg_errors]

theorem repstatus_warning (b core : String) (f : FetchOutcome RepData)
    (s : CoreStatusChecks) (x : String) :
    ((repstatus b core f s).2.recs x).warning = (s.recs x).warning := by
  rcases f with ⟨e, _ | ⟨_ | siv, _ | ⟨_ | ⟨_ | miv⟩⟩⟩⟩ | _ | _ | _ | _ <;>
    try cases e
  all_goals
    simp [repstatus, callUrl, emptyRepData, recordAge_warning, recordCheckMsg_warning]

theorem repstatus_critical (b core : String) (f : FetchOutcome RepData)
    (s : CoreStatusChecks) (x : String) :
    ((repstatus b core f s).2.recs x).critical = (s.recs x).critical := by
  rcases f with ⟨e, _ | ⟨_ | siv, _ | ⟨_ | ⟨_ | miv⟩⟩⟩⟩ | _ | _ | _ | _ <;>
    try cases e
  all_goals
    simp [repstatus, callUrl, emptyRepData, recordAge_critical, recordCheckMsg_critical]

theorem repstatus_recs_ne (b core : String) (f : FetchOutcome RepData)
    (s : CoreStatusChecks) (x : String) (hx : x ≠ core) :
    (repstatus b core f s).2.recs x = s.recs x := by
  rcases f with ⟨e, _ | ⟨_ | siv, _ | ⟨_ | ⟨_ | miv⟩⟩⟩⟩ | _ | _ | _ | _ <;>
    try cases e
  all_goals
    simp [repstatus, callUrl, emptyRepData, recordAge_recs, recordCheckMsg_recs, hx]

theorem repstatus_failed (b core : String) (f : FetchOutcome RepData)
    (s : CoreStatusChecks) (h : f.failed = true) :
    (repstatus b core f s).1 = -1 ∧
    0 < ((repstatus b core f s).2.recs core).msg.length := by
  cases f with
  | ok d => simp [FetchOutcome.failed] at h
  | urlErrorTimeout =>
    refine ⟨rfl, ?_⟩
    have h2 : ((repstatus b core .urlErrorTimeout s).2.recs core).msg =
        "timeout calling " ++ (b ++ core ++ "/replication?wt=json&command=details") := by
      simp [repstatus, callUrl, emptyRepData, recordAge_msg, recordCheckMsg_msg_self]
    rw [h2]
    exact length_pos_append _ _ (by decide)
  | urlErrorOther =>
    refine ⟨rfl, ?_⟩
    have h2 : ((repstatus b core .urlErrorOther s).2.recs core).msg =
        "exception calling " ++ (b ++ core ++ "/replication?wt=json&command=details") := by
      simp [repstatus, callUrl, emptyRepData, recordAge_msg, recordCheckMsg_msg_self]
    rw [h2]
    exact length_pos_append _ _ (by decide)
  | socketTimeout =>
    refine ⟨rfl, ?_⟩
    have h2 : ((repstatus b core .socketTimeout s).2.recs core).msg =
        "timeout calling:" ++ (b ++ core ++ "/replication?wt=json&command=details") := by
      simp [repstatus, callUrl, emptyRepData, recordAge_msg, recordCheckMsg_msg_self]
    rw [h2]
    exact length_pos_append _ _ (by decide)
  | socketError =>
    refine ⟨rfl, ?_⟩
    have h2 : ((repstatus b core .socketError s).2.recs core).msg =
        "socket error calling:" ++ (b ++ core ++ "/replication?wt=json&command=details") := by
      simp [repstatus, callUrl, emptyRepData, recordAge_msg, recordCheckMsg_msg_self]
    rw [h2]
    exact length_pos_append _ _ (by decide)

/-! Lemmas about one iteration of `main`'s loop and about folds over the
core list. -/

theorem coreStep_recs_ne (b : String) (mi : ModeInput) (c : String)
    (s : CoreStatusChecks) (x : String) (hx : x ≠ c) :
    (coreStep b mi c s).recs x = s.recs x := by
  cases mi with
  | replication w cr fetchOf =>
    simp only [coreStep]
    rw [recordCheckStatus_recs_ne _ _ _ _ hx, repstatus_recs_ne _ _ _ _ _ hx]
  | ping fetchOf =>
    simp only [coreStep]
    rw [recordCheckStatus_recs_ne _ _ _ _ hx, solrping_recs_ne _ _ _ _ _ hx]
  | age w cr todayOf fetchOf =>
    simp only [coreStep]
    rw [recordCheckStatus_recs_ne _ _ _ _ hx, indexAgeInSeconds_recs_ne _ _ _ _ _ _ hx]

theorem coreStep_warning_mono (b : String) (mi : ModeInput) (c : String)
    (s : CoreStatusChecks) (x : String) :
    (s.recs x).warning ≤ ((coreStep b mi c s).recs x).warning := by
  cases mi with
  | replication w cr fetchOf =>
    simp only [coreStep]
    rw [recordCheckStatus_warning, repstatus_warning]
    exact Nat.le_add_right _ _
  | ping fetchOf =>
    simp only [coreStep]
    rw [recordCheckStatus_warning, solrping_warning]
    exact Nat.le_add_right _ _
  | age w cr todayOf fetchOf =>
    simp only [coreStep]
    rw [recordCheckStatus_warning, indexAgeInSeconds_warning]
    exact Nat.le_add_right _ _

theorem coreStep_critical_mono (b : String) (mi : ModeInput) (c : String)
    (s : CoreStatusChecks) (x : String) :
    (s.recs x).critical ≤ ((coreStep b mi c s).recs x).critical := by
  cases mi with
  | replication w cr fetchOf =>
    simp only [coreStep]
    rw [recordCheckStatus_critical, repstatus_critical]
    exact Nat.le_add_right _ _
  | ping fetchOf =>
    simp only [coreStep]
    rw [recordCheckStatus_critical, solrping_critical]
    exact Nat.le_add_right _ _
  | age w cr todayOf fetchOf =>
    simp only [coreStep]
    rw [recordCheckStatus_critical, indexAgeInSeconds_critical]
    exact Nat.le_add_right _ _

theorem coreStep_errors_inv (b : String) (mi : ModeInput) (c : String)
    (s : CoreStatusChecks) :
    (coreStep b mi c s).errors = s.errors ∨
      0 < ((coreStep b mi c s).recs c).warning + ((coreStep b mi c s).recs c).critical := by
  cases mi with
  | replication w cr fetchOf =>
    simp only [coreStep]
    cases hcl : checkIndexLagAgainstThresholds (repstatus b c (fetchOf c) s).1 w cr with
    | OK => left; simp [recordCheckStatus, repstatus_errors]
    | WARNING =>
      right; rw [recordCheckStatus_warning, recordCheckStatus_critical] <;> simp
    | CRITICAL =>
      right; rw [recordCheckStatus_warning, recordCheckStatus_critical] <;> simp
    | ERROR =>
      right; rw [recordCheckStatus_warning, recordCheckStatus_critical] <;> simp
  | ping fetchOf =>
    simp only [coreStep]
    cases hcl : (solrping b c (fetchOf c) s).1 with
    | OK => left; simp [recordCheckStatus, solrping_errors]
    | WARNING =>
      right; rw [recordCheckStatus_warning, recordCheckStatus_critical] <;> simp
    | CRITICAL =>
      right; rw [recordCheckStatus_warning, recordCheckStatus_critical] <;> simp
    | ERROR =>
      right; rw [recordCheckStatus_warning, recordCheckStatus_critical] <;> simp
  | age w cr todayOf fetchOf =>
    simp only [coreStep]
    cases hcl : checkIndexLagAgainstThresholds (indexAgeInSeconds b c (todayOf c) (fetchOf c) s).1 w cr with
    | OK => left; simp [recordCheckStatus, indexAgeInSeconds_errors]
    | WARNING =>
      right; rw [recordCheckStatus_warning, recordCheckStatus_critical] <;> simp
    | CRITICAL =>
      right; rw [recordCheckStatus_warning, recordCheckStatus_critical] <;> simp
    | ERROR =>
      right; rw [recordCheckStatus_warning, recordCheckStatus_critical] <;> simp

theorem prepare_recs (l : List String) (s : CoreStatusChecks) (x : String) :
    (prepareCoreStatusDataStructure l s).recs x =
      if x ∈ l then initCoreRecord else s.recs x := by
  induction l generalizing s with
  | nil => simp [prepareCoreStatusDataStructure]
  | cons a t ih =>
    show (prepareCoreStatusDataStructure t
      { errors := 0, recs := fun y => if y = a then initCoreRecord else s.recs y }).recs x = _
    rw [ih]
    by_cases hxa : x = a <;> by_cases hxt : x ∈ t <;> simp [hxa, hxt, List.mem_cons]

theorem prepare_errors (l : List String) (s : CoreStatusChecks) (hs : s.errors = 0) :
    (prepareCoreStatusDataStructure l s).errors = 0 := by
  induction l generalizing s with
  | nil => simpa [prepareCoreStatusDataStructure] using hs
  | cons a t ih =>
    show (prepareCoreStatusDataStructure t
      { errors := 0, recs := fun y => if y = a then initCoreRecord else s.recs y }).errors = 0
    exact ih _ rfl

theorem foldl_recs_notmem (f : String → CoreStatusChecks → CoreStatusChecks)
    (hf : ∀ (a : String) (s : CoreStatusChecks) (x : String), x ≠ a →
      (f a s).recs x = s.recs x) :
    ∀ (l : List String) (s : CoreStatusChecks) (x : String), x ∉ l →
      (l.foldl (fun st a => f a st) s).recs x = s.recs x := by
  intro l
  induction l with
  | nil => intro s x _; rfl
  | cons a t ih =>
    intro s x hx
    simp only [List.mem_cons, not_or] at hx
    rw [List.foldl_cons, ih _ x hx.2]
    exact hf a s x hx.1

theorem foldl_age_invariant (f : String → CoreStatusChecks → CoreStatusChecks)
    (hf : ∀ (a : String) (s : CoreStatusChecks) (x : String),
      ((f a s).recs x).age = (s.recs x).age) :
    ∀ (l : List String) (s : CoreStatusChecks) (x : String),
      ((l.foldl (fun st a => f a st) s).recs x).age = (s.recs x).age := by
  intro l
  induction l with
  | nil => intro s x; rfl
  | cons a t ih =>
    intro s x
    rw [List.foldl_cons, ih _ x]
    exact hf a s x

theorem nodup_split_not_mem {l1 l2 : List String} {c : String}
    (h : (l1 ++ c :: l2).Nodup) : c ∉ l1 ∧ c ∉ l2 := by
  rw [List.nodup_append] at h
  obtain ⟨h1, h2, hd⟩ := h
  exact ⟨fun hc => hd hc (List.mem_cons_self c l2), (List.nodup_cons.mp h2).1⟩

theorem foldl_coreStep_inv (b : String) (mi : ModeInput) (L : List String) :
    ∀ (l : List String), (∀ c, c ∈ l → c ∈ L) → ∀ (s : CoreStatusChecks),
      (0 < s.errors → ∃ c, c ∈ L ∧ 0 < (s.recs c).warning + (s.recs c).critical) →
      0 < (l.foldl (fun st a => coreStep b mi a st) s).errors →
      ∃ c, c ∈ L ∧
        0 < ((l.foldl (fun st a => coreStep b mi a st) s).recs c).warning +
          ((l.foldl (fun st a => coreStep b mi a st) s).recs c).critical := by
  intro l
  induction l with
  | nil => intro _ s hs h; exact hs h
  | cons a t ih =>
    intro hsub s hs
    rw [List.foldl_cons]
    apply ih (fun c hc => hsub c (List.mem_cons_of_mem a hc))
    intro herr
    rcases coreStep_errors_inv b mi a s with heq | hpos
    · obtain ⟨c, hcL, hcpos⟩ := hs (by rw [heq] at herr; exact herr)
      refine ⟨c, hcL, ?_⟩
      have h1 := coreStep_warning_mono b mi a s c
      have h2 := coreStep_critical_mono b mi a s c
      omega
    · exact ⟨a, hsub a (List.mem_cons_self a t), hpos⟩

theorem runMode_errors_inv (b : String) (mi : ModeInput) (corenames : List String) :
    0 < (runMode b mi corenames).errors →
    ∃ c, c ∈ corenames ∧
      0 < ((runMode b mi corenames).recs c).warning +
        ((runMode b mi corenames).recs c).critical := by
  unfold runMode
  apply foldl_coreStep_inv b mi corenames corenames (fun c hc => hc)
  intro h0
  rw [prepare_errors corenames emptyChecks rfl] at h0
  exact absurd h0 (lt_irrefl 0)

/-- C6: the ping extractor returns CRITICAL when the fetch failed or the
returned mapping is empty, OK when the mapping's `status` field equals
"OK", CRITICAL for any other value of `status` (including absent), and the
ping branch of the main loop records its result directly — it never goes
through `checkIndexLagAgainstThresholds`. -/
theorem claim_C6 (b core : String) (f : FetchOutcome PingDict) (s : CoreStatusChecks) :
    (f.failed = true → (solrping b core f s).1 = .CRITICAL) ∧
    ((solrping b core (.ok ([] : PingDict)) s).1 = .CRITICAL) ∧
    (∀ d : PingDict, dictGet d "status" = some "OK" →
      (solrping b core (.ok d) s).1 = .OK) ∧
    (∀ d : PingDict, dictGet d "status" ≠ some "OK" →
      (solrping b core (.ok d) s).1 = .CRITICAL) ∧
    (∀ fetchOf : String → FetchOutcome PingDict,
      coreStep b (.ping fetchOf) core s =
        recordCheckStatus core (solrping b core (fetchOf core) s).1
          (solrping b core (fetchOf core) s).2) := by
  refine ⟨fun h => (solrping_failed b core f s h).1, rfl, ?_, ?_, fun _ => rfl⟩
  · intro d hd
    cases d with
    | nil => simp [dictGet] at hd
    | cons kv tl =>
      simp only [solrping, callUrl]
      rw [if_neg (by simp), if_pos hd]
  · intro d hd
    by_cases hlen : (d : PingDict).length = 0
    · simp only [solrping, callUrl]
      rw [if_pos hlen]
    · simp only [solrping, callUrl]
      rw [if_neg hlen, if_neg hd]

theorem claim_C6_witness :
    (solrping "u/" "core1" .urlErrorTimeout emptyChecks).1 = .CRITICAL ∧
    (solrping "u/" "core1" (.ok [("status", "OK")]) emptyChecks).1 = .OK ∧
    (solrping "u/" "core1" (.ok [("status", "BAD")]) emptyChecks).1 = .CRITICAL :=
  ⟨(claim_C6 "u/" "core1" .urlErrorTimeout emptyChecks).1 rfl,
    (claim_C6 "u/" "core1" .urlErrorTimeout emptyChecks).2.2.1 [("status", "OK")] rfl,
    (claim_C6 "u/" "core1" .urlErrorTimeout emptyChecks).2.2.2.1 [("status", "BAD")]
      (by decide)⟩

/-- C8: in every check mode, a unit whose fetch fails (timeout or any other
caught transport error, all of which return the empty mapping) ends the
run with recorded age `-1` and a non-empty diagnostic message. -/
theorem claim_C8 (baseurl : String) (mi : ModeInput) (corenames : List String)
    (core : String) (h1 : corenames.Nodup) (h2 : core ∈ corenames)
    (h3 : mi.fetchFailedAt core = true) :
    ((runMode baseurl mi corenames).recs core).age = -1 ∧
    0 < ((runMode baseurl mi corenames).recs core).msg.length := by
  obtain ⟨l1, l2, rfl⟩ := List.append_of_mem h2
  obtain ⟨hcl1, hcl2⟩ := nodup_split_not_mem h1
  unfold runMode
  rw [List.foldl_append, List.foldl_cons]
  rw [foldl_recs_notmem (coreStep baseurl mi)
    (fun a s x hx => coreStep_recs_ne baseurl mi a s x hx) l2 _ core hcl2]
  set s1 := List.foldl (fun s c => coreStep baseurl mi c s)
    (prepareCoreStatusDataStructure (l1 ++ core :: l2) emptyChecks) l1 with hs1
  have hrec : s1.recs core = initCoreRecord := by
    rw [hs1, foldl_recs_notmem (coreStep baseurl mi)
      (fun a s x hx => coreStep_recs_ne baseurl mi a s x hx) l1 _ core hcl1,
      prepare_recs]
    simp
  clear hs1
  cases mi with
  | replication w cr fetchOf =>
    simp only [ModeInput.fetchFailedAt] at h3
    simp only [coreStep]
    rw [recordCheckStatus_age, recordCheckStatus_msg]
    exact ⟨by rw [repstatus_age_eq]; exact (repstatus_failed _ _ _ _ h3).1,
      (repstatus_failed _ _ _ _ h3).2⟩
  | ping fetchOf =>
    simp only [ModeInput.fetchFailedAt] at h3
    simp only [coreStep]
    rw [recordCheckStatus_age, recordCheckStatus_msg]
    refine ⟨?_, (solrping_failed _ _ _ _ h3).2⟩
    rw [solrping_age, hrec]
    rfl
  | age w cr todayOf fetchOf =>
    simp only [ModeInput.fetchFailedAt] at h3
    simp only [coreStep]
    rw [recordCheckStatus_age, recordCheckStatus_msg]
    exact ⟨by rw [indexAgeInSeconds_age_eq]; exact (indexAgeInSeconds_failed _ _ _ _ _ h3).1,
      (indexAgeInSeconds_failed _ _ _ _ _ h3).2⟩

theorem claim_C8_witness :
    (["core1"] : List String).Nodup ∧ "core1" ∈ (["core1"] : List String) ∧
    (ModeInput.ping fun _ => FetchOutcome.urlErrorTimeout).fetchFailedAt "core1" = true ∧
    (((runMode "u/" (.ping fun _ => .urlErrorTimeout) ["core1"]).recs "core1").age = -1 ∧
      0 < ((runMode "u/" (.ping fun _ => .urlErrorTimeout) ["core1"]).recs "core1").msg.length) :=
  ⟨by decide, by decide, rfl,
    claim_C8 "u/" (.ping fun _ => .urlErrorTimeout) ["core1"] "core1"
      (by decide) (by decide) rfl⟩

/-- C10: in ping-check mode no operation ever writes a unit's age after
initialisation: every checked unit ends the run with the initialised
default age `-1` (rendered as "-1" in the report), whether or not the ping
succeeded. -/
theorem claim_C10 (baseurl : String) (fetchOf : String → FetchOutcome PingDict)
    (corenames : List String) (core : String) (h : core ∈ corenames) :
    ((runMode baseurl (.ping fetchOf) corenames).recs core).age = -1 := by
  unfold runMode
  rw [foldl_age_invariant (coreStep baseurl (.ping fetchOf))
    (fun a s x => by
      simp only [coreStep]
      rw [recordCheckStatus_age, solrping_age])]
  rw [prepare_recs]
  simp [h, initCoreRecord]

theorem claim_C10_witness :
    "core1" ∈ (["core1", "core2"] : List String) ∧
    ((runMode "u/" (.ping fun _ => .ok [("status", "OK")]) ["core1", "core2"]).recs
      "core1").age = -1 :=
  ⟨by decide,
    claim_C10 "u/" (fun _ => .ok [("status", "OK")]) ["core1", "core2"] "core1" (by decide)⟩

theorem errors_pos_sets_nonempty (s : CoreStatusChecks) (corenames : List String)
    (hinv : ∃ c, c ∈ corenames ∧ 0 < (s.recs c).warning + (s.recs c).critical) :
    0 < (partitionCores s corenames).warningCores.card +
      (partitionCores s corenames).criticalCores.card := by
  obtain ⟨c, hcmem, hcpos⟩ := hinv
  obtain ⟨hw, hc, hk⟩ := partition_loop_sets s corenames ⟨∅, ∅, ∅, "", 0⟩
  rcases Decidable.eq_or_ne (s.recs c).warning 0 with hw0 | hw0
  · have hmem : c ∈ (partitionCores s corenames).criticalCores := by
      unfold partitionCores
      rw [hc]
      simp [List.mem_filter, criticalFlag, hcmem, hw0]
      omega
    have := Finset.card_pos.mpr ⟨c, hmem⟩
    omega
  · have hmem : c ∈ (partitionCores s corenames).warningCores := by
      unfold partitionCores
      rw [hw]
      simp [List.mem_filter, warningFlag, hcmem, Nat.pos_iff_ne_zero, hw0]
    have := Finset.card_pos.mpr ⟨c, hmem⟩
    omega

/-- C5: every run that reaches aggregation prints exactly one report line
and exits (the `some (code, line)` outcome), with code 0 iff the error
tally is 0, code 2 iff the tally is positive and the critical set is
non-empty, code 1 iff the tally is positive, the critical set is empty and
the warning set is non-empty; no other exit code or output is possible on
this path. -/
theorem claim_C5 (baseurl : String) (mi : ModeInput) (corenames : List String)
    (warningMsg criticalMsg okMsg : String) (h : corenames ≠ []) :
    ∃ (code : Nat) (line : String),
      checkStatusOfCores (runMode baseurl mi corenames) corenames
        warningMsg criticalMsg okMsg = some (code, line) ∧
      (code = 0 ↔ (runMode baseurl mi corenames).errors = 0) ∧
      (code = 2 ↔ 0 < (runMode baseurl mi corenames).errors ∧
        0 < (partitionCores (runMode baseurl mi corenames) corenames).criticalCores.card) ∧
      (code = 1 ↔ 0 < (runMode baseurl mi corenames).errors ∧
        (partitionCores (runMode baseurl mi corenames) corenames).criticalCores.card = 0 ∧
        0 < (partitionCores (runMode baseurl mi corenames) corenames).warningCores.card) ∧
      (code = 0 ∨ code = 1 ∨ code = 2) := by
  have hinv := runMode_errors_inv baseurl mi corenames
  set s := runMode baseurl mi corenames with hs
  clear hs
  by_cases he : 0 < s.errors
  · have hne := errors_pos_sets_nonempty s corenames (hinv he)
    by_cases hcrit : 0 < (partitionCores s corenames).criticalCores.card
    · obtain ⟨line, hline⟩ : ∃ line,
          checkStatusOfCores s corenames warningMsg criticalMsg okMsg = some (2, line) := by
        simp only [checkStatusOfCores]
        rw [if_pos he, if_pos hcrit]
        exact ⟨_, rfl⟩
      exact ⟨2, line, hline, by omega, by omega, by omega, by omega⟩
    · have hwarn : 0 < (partitionCores s corenames).warningCores.card := by omega
      obtain ⟨line, hline⟩ : ∃ line,
          checkStatusOfCores s corenames warningMsg criticalMsg okMsg = some (1, line) := by
        simp only [checkStatusOfCores]
        rw [if_pos he, if_neg hcrit, if_pos hwarn]
        exact ⟨_, rfl⟩
      exact ⟨1, line, hline, by omega, by omega, by omega, by omega⟩
  · obtain ⟨line, hline⟩ : ∃ line,
        checkStatusOfCores s corenames warningMsg criticalMsg okMsg = some (0, line) := by
      simp only [checkStatusOfCores]
      rw [if_neg he]
      exact ⟨_, rfl⟩
    exact ⟨0, line, hline, by omega, by omega, by omega, by omega⟩

theorem claim_C5_witness :
    ((["core1"] : List String) ≠ []) ∧
    (∃ (code : Nat) (line : String),
      checkStatusOfCores
        (runMode "u/" (.ping fun _ => .ok [("status", "OK")]) ["core1"]) ["core1"]
        "W" "C" "OK" = some (code, line) ∧
      (code = 0 ↔
        (runMode "u/" (.ping fun _ => .ok [("status", "OK")]) ["core1"]).errors = 0) ∧
      (code = 2 ↔
        0 < (runMode "u/" (.ping fun _ => .ok [("status", "OK")]) ["core1"]).errors ∧
        0 < (partitionCores (runMode "u/" (.ping fun _ => .ok [("status", "OK")]) ["core1"])
          ["core1"]).criticalCores.card) ∧
      (code = 1 ↔
        0 < (runMode "u/" (.ping fun _ => .ok [("status", "OK")]) ["core1"]).errors ∧
        (partitionCores (runMode "u/" (.ping fun _ => .ok [("status", "OK")]) ["core1"])
          ["core1"]).criticalCores.card = 0 ∧
        0 < (partitionCores (runMode "u/" (.ping fun _ => .ok [("status", "OK")]) ["core1"])
          ["core1"]).warningCores.card) ∧
      (code = 0 ∨ code = 1 ∨ code = 2)) :=
  ⟨by decide,
    claim_C5 "u/" (.ping fun _ => .ok [("status", "OK")]) ["core1"] "W" "C" "OK"
      (by decide)⟩

/-! Lemmas about `recordRun`, the record-each-unit-exactly-once discipline. -/

theorem recordFold_errors (cls : String → Classification) :
    ∀ (l : List String) (s : CoreStatusChecks),
      (l.foldl (fun st c => recordCheckStatus c (cls c) st) s).errors =
        s.errors + l.countP (fun c => decide (cls c ≠ .OK)) := by
  intro l
  induction l with
  | nil => intro s; simp
  | cons a t ih =>
    intro s
    rw [List.foldl_cons, ih, List.countP_cons, recordCheckStatus_errors]
    rcases Decidable.eq_or_ne (cls a) .OK with hcl | hcl <;> simp [hcl] <;> omega

theorem recordRun_errors (cls : String → Classification) (corenames : List String) :
    (recordRun cls corenames).errors =
      corenames.countP (fun c => decide (cls c ≠ .OK)) := by
  unfold recordRun
  rw [recordFold_errors, prepare_errors corenames emptyChecks rfl]
  omega

theorem recordRun_recs (cls : String → Classification) (l : List String)
    (h : l.Nodup) (c : String) (hc : c ∈ l) :
    (recordRun cls l).recs c = recordedRec (cls c) := by
  obtain ⟨l1, l2, rfl⟩ := List.append_of_mem hc
  obtain ⟨hcl1, hcl2⟩ := nodup_split_not_mem h
  unfold recordRun
  rw [List.foldl_append, List.foldl_cons]
  rw [foldl_recs_notmem (fun a s => recordCheckStatus a (cls a) s)
    (fun a s x hx => recordCheckStatus_recs_ne a (cls a) s x hx) l2 _ c hcl2]
  set s1 := List.foldl (fun s core => recordCheckStatus core (cls core) s)
    (prepareCoreStatusDataStructure (l1 ++ c :: l2) emptyChecks) l1 with hs1
  have hrec : s1.recs c = initCoreRecord := by
    rw [hs1, foldl_recs_notmem (fun a s => recordCheckStatus a (cls a) s)
      (fun a s x hx => recordCheckStatus_recs_ne a (cls a) s x hx) l1 _ c hcl1,
      prepare_recs]
    simp
  clear hs1
  cases hcls : cls c <;>
    simp [recordCheckStatus, recordedRec, hrec, initCoreRecord]

theorem countP_ok_split (cls : String → Classification) :
    ∀ l : List String,
      l.countP (fun c => decide (cls c = .OK)) +
        l.countP (fun c => decide (cls c ≠ .OK)) = l.length := by
  intro l
  induction l with
  | nil => rfl
  | cons a t ih =>
    rw [List.countP_cons, List.countP_cons]
    rcases Decidable.eq_or_ne (cls a) .OK with hcl | hcl
    · rw [if_pos (by simp [hcl]), if_neg (by simp [hcl]), List.length_cons]
      omega
    · rw [if_neg (by simp [hcl]), if_pos (by simp [hcl]), List.length_cons]
      omega

/-- C9: `recordCheckStatus` bumps the core's critical counter for CRITICAL
and for ERROR, bumps the warning counter for WARNING, changes neither
counter for OK, and bumps the run-wide `errors` tally exactly when the
classification is not OK; consequently, recording each (distinct) unit
exactly once, the reported `num_ok_cores` value
(`len(corenames) - errors`) equals the size of the ok set. -/
theorem claim_C9 :
    (∀ (core : String) (status : Classification) (s : CoreStatusChecks),
      ((recordCheckStatus core status s).recs core).critical =
        (s.recs core).critical +
          (if status = .CRITICAL ∨ status = .ERROR then 1 else 0) ∧
      ((recordCheckStatus core status s).recs core).warning =
        (s.recs core).warning + (if status = .WARNING then 1 else 0) ∧
      (recordCheckStatus core status s).errors =
        s.errors + (if status = .OK then 0 else 1)) ∧
    (∀ (cls : String → Classification) (corenames : List String),
      corenames.Nodup →
      (corenames.length : Int) - ((recordRun cls corenames).errors : Int) =
        ((partitionCores (recordRun cls corenames) corenames).okCores.card : Int)) := by
  constructor
  · intro core status s
    refine ⟨?_, ?_, recordCheckStatus_errors core status s⟩
    · rw [recordCheckStatus_critical]
      simp
    · rw [recordCheckStatus_warning]
      simp
  · intro cls corenames hnd
    obtain ⟨hw, hc, hk⟩ :=
      partition_loop_sets (recordRun cls corenames) corenames ⟨∅, ∅, ∅, "", 0⟩
    have hcard : (partitionCores (recordRun cls corenames) corenames).okCores.card =
        (corenames.filter (okFlag (recordRun cls corenames))).length := by
      unfold partitionCores
      rw [hk]
      simp only [Finset.empty_union]
      exact List.toFinset_card_of_nodup (hnd.filter _)
    have hfil : (corenames.filter (okFlag (recordRun cls corenames))).length =
        corenames.countP (fun c => decide (cls c = .OK)) := by
      rw [← List.countP_eq_length_filter]
      apply List.countP_congr
      intro x hx
      have hxr := recordRun_recs cls corenames hnd x hx
      cases hcls : cls x <;>
        simp [okFlag, hxr, hcls, recordedRec]
    have herr := recordRun_errors cls corenames
    have hsplit := countP_ok_split cls corenames
    rw [hcard, hfil, herr]
    omega

theorem claim_C9_witness :
    (((recordCheckStatus "core1" .ERROR emptyChecks).recs "core1").critical =
      ((emptyChecks.recs "core1").critical +
        (if (Classification.ERROR = .CRITICAL ∨ Classification.ERROR = .ERROR)
          then 1 else 0)) ∧
      ((recordCheckStatus "core1" .ERROR emptyChecks).recs "core1").warning =
        ((emptyChecks.recs "core1").warning +
          (if (Classification.ERROR = .WARNING) then 1 else 0)) ∧
      (recordCheckStatus "core1" .ERROR emptyChecks).errors =
        emptyChecks.errors + (if (Classification.ERROR = .OK) then 0 else 1)) ∧
    ((["core1", "core2"] : List String).Nodup ∧
      ((["core1", "core2"] : List String).length : Int) -
        ((recordRun (fun _ => .OK) ["core1", "core2"]).errors : Int) =
        ((partitionCores (recordRun (fun _ => .OK) ["core1", "core2"])
          ["core1", "core2"]).okCores.card : Int)) :=
  ⟨claim_C9.1 "core1" .ERROR emptyChecks,
    by decide,
    claim_C9.2 (fun _ => .OK) ["core1", "core2"] (by decide)⟩

end CheckSolr
